import Mathlib

/-!
Shallow embedding of `autoscaler/scaling_policy.py`: the scaling-decision and
bin-packing engine and its three policies (basic, cost-based, growth-based),
together with theorems checking the specification's claims against the code.
Machine integers are modelled as ℤ/ℕ; Python floats that occur only at exactly
representable values are modelled as ℚ.
-/

namespace Autoscaling

/-- Modelled from the spec: `KubeResource` (from `autoscaler.kube`, which is
not under `src/`): an ordered tuple of numeric dimensions with component-wise
subtraction and a feasibility test `possible`, true iff all components are
nonnegative. -/
structure KubeResource where
  dims : List Int
  deriving DecidableEq, Repr

/-- Component-wise subtraction `a - b` of resource vectors (may go negative). -/
def KubeResource.sub (a b : KubeResource) : KubeResource :=
  ⟨a.dims.zipWith (fun x y => x - y) b.dims⟩

/-- `resource.possible`: every dimension is nonnegative. -/
def KubeResource.possible (a : KubeResource) : Bool :=
  a.dims.all (fun x => 0 ≤ x)

/-- Modelled from the spec: a workload unit (`KubePod` from `autoscaler.kube`,
not under `src/`): requested resources and a toleration set for taints. -/
structure KubePod where
  resources : KubeResource
  tolerations : List String
  deriving DecidableEq, Repr

/-- Modelled from the spec: a scalable node group
(`autoscaler.autoscaling_groups`, not under `src/`): capacities, per-unit
capacity (`capacity.get_unit_capacity`), taint set, timeout and unschedulable
flags, and the selector hash used for key lookup. -/
structure Group where
  gid : Nat
  selectors_hash : Nat
  actual_capacity : Int
  desired_capacity : Int
  max_size : Int
  instance_type : String
  unschedulable_nodes : Bool
  timed_out : Bool
  unit_capacity : KubeResource
  taints : List String
  deriving DecidableEq, Repr

/-- Modelled from the spec: `group.is_taints_tolerated(pod)` — every taint of
the group is tolerated by the pod. -/
def Group.is_taints_tolerated (g : Group) (p : KubePod) : Bool :=
  g.taints.all (fun t => p.tolerations.contains t)

/-- Modelled from the spec: the cluster facade consumed by the policies — the
over-provision setting, the process-wide timeout tracker backing
`cluster.autoscaling_timeouts.is_timed_out`, and the cluster-defined group
prioritization `cluster._prioritize_groups`. -/
structure Cluster where
  over_provision : Nat
  timed_out_group_ids : List Nat
  prioritize : List Group → List Group

/-- `cluster.autoscaling_timeouts.is_timed_out(group)`. -/
def Cluster.is_timed_out (c : Cluster) (g : Group) : Bool :=
  c.timed_out_group_ids.contains g.gid

/-- Modelled from the spec: `utils.get_groups_for_hash(asgs, selectors_hash)`
(`autoscaler.utils`, not under `src/`): the groups compatible with a
group-key. -/
def get_groups_for_hash (asgs : List Group) (h : Nat) : List Group :=
  asgs.filter (fun g => g.selectors_hash == h)

/-- A bin of the allocator: the residual resource after provisional
assignments (`new_instance_resources[i]`) paired with the pods assigned to it
(`assigned_pods[i]`). -/
abbrev Bin := KubeResource × List KubePod

/-- The first-fit scan of `scaling_policy.py` lines 78-84: assign the pod to
the first bin whose residual stays feasible after subtracting its resources;
`none` when no existing bin fits. -/
def fitFirst (pod : KubePod) : List Bin → Option (List Bin)
  | [] => none
  | (res, ps) :: rest =>
    if (res.sub pod.resources).possible then
      some ((res.sub pod.resources, ps ++ [pod]) :: rest)
    else
      (fitFirst pod rest).map (fun bs => (res, ps) :: bs)

/-- One iteration of the allocation loop of `scaling_policy.py` lines 74-88:
skip a pod that a fresh unit capacity cannot hold alone or whose taints the
group does not tolerate; otherwise first-fit into the existing bins, opening a
new bin seeded with a fresh unit capacity minus the pod when none fits. -/
def packStep (g : Group) (bins : List Bin) (pod : KubePod) : List Bin :=
  if !(g.unit_capacity.sub pod.resources).possible || !(g.is_taints_tolerated pod) then
    bins
  else
    match fitFirst pod bins with
    | some bins2 => bins2
    | none => bins ++ [(g.unit_capacity.sub pod.resources, [pod])]

/-- The bin-packing allocation loop of `scaling_policy.py` lines 71-88 over
the pods of one group-key, in input order (the `accounted_pods` flags are
initialised to `False` and never set, so every pod is considered). -/
def packPods (g : Group) (pods : List KubePod) : List Bin :=
  pods.foldl (packStep g) []

/-- A scale request issued through `ScalingPolicy.create_async_operation`:
the group, the per-bin assigned pods, and the computed capacities. -/
structure ScaleRequest where
  group : Group
  assigned_pods : List (List KubePod)
  new_capacity : Int
  units_requested : Int
  deriving DecidableEq, Repr

/-- The per-group body of `ScalingPolicy.decide_num_instances`
(`scaling_policy.py` lines 65-113): skip ineligible groups, pack the pods into
bins, add the over-provision buffer, cap by the timed-out or normal headroom,
and issue the scale request. -/
def decideForGroup (cluster : Cluster) (pods : List KubePod) (g : Group) :
    Option ScaleRequest :=
  if (cluster.is_timed_out g || g.timed_out || g.max_size == g.desired_capacity)
      && !g.unschedulable_nodes then
    none
  else
    let bins := packPods g pods
    if bins.length == 0 then
      none
    else
      let units_needed : Int := (bins.length : Int) + (cluster.over_provision : Int)
      let unavailable_units : Int :=
        if cluster.is_timed_out g || g.timed_out then
          max 0 (units_needed - (g.desired_capacity - g.actual_capacity))
        else
          max 0 (units_needed - (g.max_size - g.actual_capacity))
      let units_requested := units_needed - unavailable_units
      some ⟨g, (bins.map Prod.snd), g.actual_capacity + units_requested, units_requested⟩

/-- `set(pending_pods.keys())`: the distinct group-keys of the pending-pods
mapping, modelled as an association list. -/
def distinctKeys (pending : List (Nat × List KubePod)) : List Nat :=
  (pending.map Prod.fst).dedup

/-- `pending_pods.get(selectors_hash, [])`. -/
def podsForKey (pending : List (Nat × List KubePod)) (h : Nat) : List KubePod :=
  match pending.lookup h with
  | some pods => pods
  | none => []

/-- `ScalingPolicy.decide_num_instances` (`scaling_policy.py` lines 54-113):
for every distinct group-key, pack that key's pods against each prioritized
candidate group and collect the resulting scale requests. -/
def decide_num_instances (cluster : Cluster) (pending : List (Nat × List KubePod))
    (asgs : List Group) : List ScaleRequest :=
  (distinctKeys pending).flatMap (fun h =>
    (cluster.prioritize (get_groups_for_hash asgs h)).filterMap
      (decideForGroup cluster (podsForKey pending h)))

/-- The scale requests issued by one `ScalingPolicy.apply` cycle
(`scaling_policy.py` lines 48-52): the outer loop runs once per distinct
group-key and calls `decide_num_instances` — which itself loops over all the
keys — on each iteration. -/
def applyRequests (cluster : Cluster) (pending : List (Nat × List KubePod))
    (asgs : List Group) : List ScaleRequest :=
  (distinctKeys pending).flatMap (fun _ => decide_num_instances cluster pending asgs)

/-- The budget-gate loop of `CostBasedScalingPolicy.decide_num_instances`
(`scaling_policy.py` lines 227-231), iterating `i` over
`range(units_requested)` as a fuelled recursion: the first `i` whose predicted
cost exceeds `max_cost_per_hour * 0.75` caps the request at `i + 1` and breaks
out of the loop; with no such `i` the request is unchanged. -/
def costCapGo (spent_this_hour max_cost_per_hour avg_hours_used cost_per_hour : ℚ)
    (total : Nat) : Nat → Nat → Nat
  | _, 0 => total
  | i, fuel + 1 =>
    if spent_this_hour + ((i : ℚ) + 1) * avg_hours_used * cost_per_hour >
        max_cost_per_hour * (3 / 4) then
      i + 1
    else
      costCapGo spent_this_hour max_cost_per_hour avg_hours_used cost_per_hour total
        (i + 1) fuel

/-- The capped `units_requested` after the budget gate of
`CostBasedScalingPolicy.decide_num_instances` (`scaling_policy.py`
lines 227-231). -/
def cappedUnitsRequested (spent_this_hour max_cost_per_hour avg_hours_used
    cost_per_hour : ℚ) (units_requested : Nat) : Nat :=
  costCapGo spent_this_hour max_cost_per_hour avg_hours_used cost_per_hour
    units_requested 0 units_requested

/-- The hour-boundary check of `CostBasedScalingPolicy.decide_num_instances`
(`scaling_policy.py` lines 159-162), exactly as written: it compares
`(self.start_time - curr_time) / 3600` — start minus current — against the
tracked `num_hours`, and on success increments `num_hours` and resets
`spent_this_hour`. Times are seconds since the epoch. -/
def hourRollover (start_time curr_time : ℚ) (num_hours : ℤ) (spent_this_hour : ℚ) :
    ℤ × ℚ :=
  if (start_time - curr_time) / 3600 > (num_hours : ℚ) then
    (num_hours + 1, 0)
  else
    (num_hours, spent_this_hour)

/-- The cross-cycle state of `GrowthBasedScalingPolicy`
(`scaling_policy.py` lines 246-247): `num_triggers` and `last_num_pods`,
both initialised to zero. -/
structure GrowthState where
  num_triggers : Nat
  last_num_pods : Nat
  deriving DecidableEq, Repr

/-- The trigger bookkeeping of `GrowthBasedScalingPolicy.apply`
(`scaling_policy.py` lines 250-257): growth strictly beyond
`trigger_growth_factor * last_num_pods` increments the trigger count and
records the new pod count; otherwise a drop strictly below
`last_num_pods * 0.75` resets both counters. -/
def growthUpdate (trigger_growth_factor : ℚ) (s : GrowthState)
    (num_pending_pods : Nat) : GrowthState :=
  if (num_pending_pods : ℚ) > trigger_growth_factor * (s.last_num_pods : ℚ) then
    ⟨s.num_triggers + 1, num_pending_pods⟩
  else if (num_pending_pods : ℚ) < (s.last_num_pods : ℚ) * (3 / 4) then
    ⟨0, 0⟩
  else
    s

/-- One `GrowthBasedScalingPolicy.apply` cycle (`scaling_policy.py`
lines 249-268), reduced to its trigger state machine: the state after the
cycle, and whether the scaling decision procedure ran this cycle
(`num_triggers >= num_triggers_to_provision` after the bookkeeping, which also
resets both counters). -/
def growthApply (trigger_growth_factor : ℚ) (num_triggers_to_provision : Nat)
    (s : GrowthState) (num_pending_pods : Nat) : GrowthState × Bool :=
  let s2 := growthUpdate trigger_growth_factor s num_pending_pods
  if s2.num_triggers ≥ num_triggers_to_provision then
    (⟨0, 0⟩, true)
  else
    (s2, false)

/-- A sequence of `GrowthBasedScalingPolicy.apply` cycles with the given
total pending-pod counts, collecting for each cycle whether the scaling
decision procedure ran. -/
def growthRun (trigger_growth_factor : ℚ) (num_triggers_to_provision : Nat)
    (s : GrowthState) : List Nat → List Bool
  | [] => []
  | n :: ns =>
    let r := growthApply trigger_growth_factor num_triggers_to_provision s n
    r.2 :: growthRun trigger_growth_factor num_triggers_to_provision r.1 ns

/-- An exception that `operation.result()` can raise at the provider
boundary: `CloudError` or `TimeoutError`, per the spec's error taxonomy. -/
inductive PyError where
  | cloudError (msg : String)
  | timeoutError
  deriving DecidableEq, Repr

/-- The outcome of one async scale operation: resolved with a truthy or falsy
result, or raising an exception from `operation.result()`. -/
inductive OpOutcome where
  | done (scaled : Bool)
  | raises (e : PyError)
  deriving DecidableEq, Repr

/-- `operation.result()`: the awaited value, with a raised exception modelled
as `Except.error`. -/
def opResult : OpOutcome → Except PyError Bool
  | .done b => .ok b
  | .raises e => .error e

/-- `ScalingPolicy.fulfill_requests` (`scaling_policy.py` lines 26-33): await
every operation in order; a `CloudError` or a `TimeoutError` raised by
`operation.result()` is caught by its `except` clause and logged as a warning.
The result is `Except.ok` over the per-operation log trace; an uncaught
exception would be `Except.error`, and the match over both `PyError`
constructors mirrors the two `except` clauses catching everything
`operation.result()` raises. -/
def fulfill_requests (async_operations : List OpOutcome) :
    Except PyError (List String) :=
  .ok (async_operations.map (fun operation =>
    match opResult operation with
    | .ok _ => "awaited"
    | .error (.cloudError msg) => "warn: Error while scaling Scale Set: " ++ msg
    | .error .timeoutError => "warn: Timeout while scaling Scale Set"))

/-- The completion callback `notify_if_scaled` registered by
`ScalingPolicy.create_async_operation` (`scaling_policy.py` lines 38-43),
returning the list of pod-list arguments of the `notify_scale` calls it makes,
in order: as written in the source, the `cluster.notifier.notify_scale` call
sits inside the flattening loop, so on a truthy result it fires once per bin
with the partially flattened list accumulated so far; on a falsy result it
never fires. -/
def notifyScaleCalls (result : Bool) (assigned_pods : List (List KubePod)) :
    List (List KubePod) :=
  if result then
    (assigned_pods.foldl
      (fun st instance_pods =>
        let flat := st.1 ++ instance_pods
        (flat, st.2 ++ [flat]))
      (([] : List KubePod), ([] : List (List KubePod)))).2
  else
    []

/-- The allocator's per-bin invariant: the residual is feasible and every
assigned pod is tolerated by the group and fits a fresh unit alone. -/
def BinOK (g : Group) (b : Bin) : Prop :=
  b.1.possible = true ∧
    ∀ p ∈ b.2, g.is_taints_tolerated p = true ∧
      (g.unit_capacity.sub p.resources).possible = true

/-- A sample pod requesting one unit of the single resource dimension. -/
def podW1 : KubePod := ⟨⟨[1]⟩, []⟩

/-- A second sample pod, distinguishable from `podW1` by its toleration. -/
def podW2 : KubePod := ⟨⟨[1]⟩, ["dedicated"]⟩

/-- A sample group serving selector hash 1 with headroom up to `max_size`. -/
def groupW1 : Group := ⟨1, 1, 0, 5, 10, "m4large", false, false, ⟨[2]⟩, []⟩

/-- A sample group serving selector hash 2. -/
def groupW2 : Group := ⟨2, 2, 0, 5, 10, "m4large", false, false, ⟨[2]⟩, []⟩

/-- A sample cluster facade: no over-provision, no timed-out groups, identity
prioritization. -/
def clusterW : Cluster := ⟨0, [], fun gs => gs⟩

/-- The scale request the base policy produces for `podW1` against
`groupW1`. -/
def requestW : ScaleRequest := ⟨groupW1, [[podW1]], 1, 1⟩

theorem decideForGroup_group_eq (cluster : Cluster) (pods : List KubePod)
    (g : Group) (req : ScaleRequest)
    (hreq : decideForGroup cluster pods g = some req) : req.group = g := by
  unfold decideForGroup at hreq
  split at hreq
  · exact absurd hreq (by simp)
  · simp only [] at hreq
    split at hreq
    · exact absurd hreq (by simp)
    · rw [Option.some.injEq] at hreq
      rw [← hreq]

theorem decideForGroup_bounds (cluster : Cluster) (pods : List KubePod)
    (g : Group) (req : ScaleRequest)
    (hreq : decideForGroup cluster pods g = some req)
    (h1 : g.actual_capacity ≤ g.desired_capacity)
    (h2 : g.desired_capacity ≤ g.max_size) :
    req.group.actual_capacity ≤ req.new_capacity ∧
      req.new_capacity ≤ req.group.max_size := by
  unfold decideForGroup at hreq
  split at hreq
  · exact absurd hreq (by simp)
  · simp only [] at hreq
    split at hreq
    · exact absurd hreq (by simp)
    · rename_i hlen
      rw [Option.some.injEq] at hreq
      rw [← hreq]
      have hlen2 : 1 ≤ (packPods g pods).length := by
        rcases Nat.eq_zero_or_pos (packPods g pods).length with h0 | h0
        · exact absurd (by simpa using h0) hlen
        · exact h0
      have hlen3 : (1 : Int) ≤ ((packPods g pods).length : Int) := by exact_mod_cast hlen2
      have hov : (0 : Int) ≤ (cluster.over_provision : Int) := by positivity
      constructor
      · simp only []
        split <;> omega
      · simp only []
        split <;> omega

/-- C1: every scale request the base policy's `decide_num_instances` issues
for a group whose state satisfies `actual_capacity ≤ desired_capacity ≤
max_size` has its `new_capacity` between the group's `actual_capacity` and its
`max_size`, in the timed-out branch (capped by `desired_capacity -
actual_capacity`) as well as in the normal branch (capped by `max_size -
actual_capacity`). -/
theorem scale_request_capacity_within_bounds (cluster : Cluster)
    (pending : List (Nat × List KubePod)) (asgs : List Group)
    (req : ScaleRequest) (hmem : req ∈ decide_num_instances cluster pending asgs)
    (h1 : req.group.actual_capacity ≤ req.group.desired_capacity)
    (h2 : req.group.desired_capacity ≤ req.group.max_size) :
    req.group.actual_capacity ≤ req.new_capacity ∧
      req.new_capacity ≤ req.group.max_size := by
  rcases List.mem_flatMap.mp hmem with ⟨k, hk, hmem2⟩
  rcases List.mem_filterMap.mp hmem2 with ⟨g, hg, hsome⟩
  have hgg := decideForGroup_group_eq _ _ _ _ hsome
  rw [hgg] at h1 h2
  exact decideForGroup_bounds _ _ _ _ hsome h1 h2

/-- Witness for C1 at a concrete input: the request the base policy produces
for `podW1` against `groupW1` stays within the capacity bounds. -/
theorem scale_request_capacity_within_bounds_witness :
    requestW.group.actual_capacity ≤ requestW.new_capacity ∧
      requestW.new_capacity ≤ requestW.group.max_size :=
  scale_request_capacity_within_bounds clusterW [(1, [podW1])] [groupW1] requestW
    (by decide) (by decide) (by decide)

/-- C2 (refuting): with two distinct group-keys, one `apply` cycle of the base
policy executes the per-key decision procedure twice per key — a single
`decide_num_instances` call already covers both keys, and the outer loop of
`apply` calls it once per key — so each group receives two scale requests for
its key in one cycle, not at most one. -/
theorem apply_reprocesses_every_key :
    (applyRequests clusterW [(1, [podW1]), (2, [podW2])] [groupW1, groupW2]).length = 4 ∧
    ((applyRequests clusterW [(1, [podW1]), (2, [podW2])] [groupW1, groupW2]).filter
        (fun r => r.group.gid == 1)).length = 2 ∧
    (decide_num_instances clusterW [(1, [podW1]), (2, [podW2])]
        [groupW1, groupW2]).length = 2 := by
  decide

/-- C3 (counterexample): in the spec's budget-gate scenario
(`max_cost_per_hour = 10`, `cost_per_hour = 2`, `avg_hours_used = 0.25`,
`spent_this_hour = 0`, 100 units requested) the gate does not cap the request
at 15. -/
theorem cost_cap_scenario_not_fifteen :
    cappedUnitsRequested 0 10 (1 / 4) 2 100 ≠ 15 := by
  norm_num [cappedUnitsRequested, costCapGo]

/-- C3 (amended): the gate caps the request at 16 — the loop caps at `i + 1`
for the first `i` whose predicted cost strictly exceeds 75% of the budget,
which is one more than the largest `i + 1` whose predicted cost stays within
it. -/
theorem cost_cap_scenario_is_sixteen :
    cappedUnitsRequested 0 10 (1 / 4) 2 100 = 16 := by
  norm_num [cappedUnitsRequested, costCapGo]

/-- C4 (code evaluated at the failing input): two full hours after policy
construction (`start_time = 0`, `curr_time = 7200`) with `num_hours = 0` and
`spent_this_hour = 5`, the hour-boundary check leaves both unchanged — the
source compares `(start_time - curr_time) / 3600`, which is never positive —
even though the elapsed wall-clock hours exceed the tracked hour count. -/
theorem hour_boundary_reset_skipped :
    hourRollover 0 7200 0 5 = (0, 5) ∧ ((7200 : ℚ) - 0) / 3600 > ((0 : ℤ) : ℚ) := by
  constructor
  · norm_num [hourRollover]
  · norm_num

/-- C5 (counterexample): with `trigger_growth_factor = 2` and
`num_triggers_to_provision = 3`, the pending-count sequence `[1, 3, 7, 15]`
does not first run the scaling decision on the 4th call. -/
theorem growth_sequence_not_fourth_call :
    ¬ growthRun 2 3 ⟨0, 0⟩ [1, 3, 7, 15] = [false, false, false, true] := by
  norm_num [growthRun, growthApply, growthUpdate]

/-- C5 (amended): on the sequence `[1, 3, 7, 15]` the scaling decision runs
for the first time exactly on the 3rd call — the very first call already
counts as a growth trigger because `last_num_pods` starts at 0 — and any call
whose pending count is below `0.75 * last_num_pods` leaves the trigger count
at 0. -/
theorem growth_sequence_third_call_and_reset :
    growthRun 2 3 ⟨0, 0⟩ [1, 3, 7, 15] = [false, false, true, false] ∧
    ∀ (s : GrowthState) (n : Nat), (n : ℚ) < (s.last_num_pods : ℚ) * (3 / 4) →
      ((growthApply 2 3 s n).1).num_triggers = 0 := by
  constructor
  · norm_num [growthRun, growthApply, growthUpdate]
  · intro s n h
    have hL : (0 : ℚ) ≤ (s.last_num_pods : ℚ) := Nat.cast_nonneg _
    have hno : ¬ ((n : ℚ) > 2 * (s.last_num_pods : ℚ)) := by
      push_neg
      nlinarith
    rw [growthApply, growthUpdate, if_neg hno, if_pos h]
    norm_num

/-- Witness for C5's amended reset clause: a cycle seeing 5 pending pods after
`last_num_pods = 8` (5 < 6 = 0.75 * 8) ends with a zero trigger count. -/
theorem growth_sequence_third_call_and_reset_witness :
    ((growthApply 2 3 ⟨2, 8⟩ 5).1).num_triggers = 0 :=
  growth_sequence_third_call_and_reset.2 ⟨2, 8⟩ 5 (by norm_num)

/-- C6 (code evaluated at the failing input): on a successful resolution with
two bins, the completion callback invokes `notify_scale` twice — once per bin,
with the partially flattened prefix each time — rather than exactly once with
the fully flattened list; on a falsy resolution it never fires. -/
theorem notify_scale_fires_once_per_bin :
    notifyScaleCalls true [[podW1], [podW2]] = [[podW1], [podW1, podW2]] ∧
    notifyScaleCalls false [[podW1], [podW2]] = [] := by
  decide

theorem fitFirst_ok (g : Group) (pod : KubePod)
    (hpt : g.is_taints_tolerated pod = true)
    (hpf : (g.unit_capacity.sub pod.resources).possible = true) :
    ∀ bins bins2, (∀ b ∈ bins, BinOK g b) → fitFirst pod bins = some bins2 →
      ∀ b ∈ bins2, BinOK g b := by
  intro bins
  induction bins with
  | nil =>
    intro bins2 _ hf
    simp [fitFirst] at hf
  | cons hd tl ih =>
    intro bins2 hOK hf
    obtain ⟨res, ps⟩ := hd
    rw [fitFirst] at hf
    split at hf
    · rename_i hposs
      rw [Option.some.injEq] at hf
      subst hf
      intro b hb
      rcases List.mem_cons.mp hb with rfl | hb2
      · refine ⟨hposs, fun p hp => ?_⟩
        rcases List.mem_append.mp hp with hp1 | hp2
        · exact (hOK (res, ps) (List.mem_cons_self _ _)).2 p hp1
        · rw [List.mem_singleton.mp hp2]
          exact ⟨hpt, hpf⟩
      · exact hOK b (List.mem_cons_of_mem _ hb2)
    · rcases Option.map_eq_some'.mp hf with ⟨bs, hbs, hb2eq⟩
      subst hb2eq
      intro b hb
      rcases List.mem_cons.mp hb with rfl | hb2
      · exact hOK (res, ps) (List.mem_cons_self _ _)
      · exact ih bs (fun c hc => hOK c (List.mem_cons_of_mem _ hc)) hbs b hb2

theorem packStep_ok (g : Group) (bins : List Bin) (pod : KubePod)
    (hOK : ∀ b ∈ bins, BinOK g b) : ∀ b ∈ packStep g bins pod, BinOK g b := by
  rw [packStep]
  split
  · exact hOK
  · rename_i hcond
    have hcond2 : (g.unit_capacity.sub pod.resources).possible = true ∧
        g.is_taints_tolerated pod = true := by
      by_cases hA : (g.unit_capacity.sub pod.resources).possible = true <;>
        by_cases hB : g.is_taints_tolerated pod = true <;>
          simp_all
    obtain ⟨hpf, hpt⟩ := hcond2
    split
    · rename_i bins2 heq
      exact fitFirst_ok g pod hpt hpf bins bins2 hOK heq
    · intro b hb
      rcases List.mem_append.mp hb with hb1 | hb2
      · exact hOK b hb1
      · rw [List.mem_singleton.mp hb2]
        refine ⟨hpf, fun p hp => ?_⟩
        rw [List.mem_singleton.mp hp]
        exact ⟨hpt, hpf⟩

theorem packFold_ok (g : Group) :
    ∀ (pods : List KubePod) (bins : List Bin), (∀ b ∈ bins, BinOK g b) →
      ∀ b ∈ pods.foldl (packStep g) bins, BinOK g b := by
  intro pods
  induction pods with
  | nil =>
    intro bins h
    simpa using h
  | cons p ps ih =>
    intro bins h
    rw [List.foldl_cons]
    exact ih _ (packStep_ok g bins p h)

/-- C7: for every group and every input pod list, every bin the allocation
loop produces has a feasible residual, and every pod it assigns is tolerated
by the group and fits a fresh unit capacity alone — so a pod that a fresh unit
cannot hold, or that the group does not tolerate, is never assigned, and every
residual stays feasible. -/
theorem packPods_residuals_feasible_and_tolerated (g : Group) (pods : List KubePod) :
    ∀ b ∈ packPods g pods, b.1.possible = true ∧
      ∀ p ∈ b.2, g.is_taints_tolerated p = true ∧
        (g.unit_capacity.sub p.resources).possible = true := by
  intro b hb
  exact packFold_ok g pods [] (by simp) b hb

/-- Witness for C7 at a concrete input: packing `podW1` into `groupW1` yields
the bin with residual `[1]` holding `podW1`, which is feasible and
tolerated. -/
theorem packPods_residuals_feasible_and_tolerated_witness :
    ((⟨[1]⟩, [podW1]) : Bin).1.possible = true ∧
      (groupW1.is_taints_tolerated podW1 = true ∧
        (groupW1.unit_capacity.sub podW1.resources).possible = true) :=
  ⟨(packPods_residuals_feasible_and_tolerated groupW1 [podW1]
      ((⟨[1]⟩, [podW1]) : Bin) (by decide)).1,
   (packPods_residuals_feasible_and_tolerated groupW1 [podW1]
      ((⟨[1]⟩, [podW1]) : Bin) (by decide)).2 podW1 (by decide)⟩

/-- C8: for every list of operation outcomes, `fulfill_requests` awaits each
operation and returns normally (`Except.ok`): the two handlers catch a raised
`CloudError` or `TimeoutError`, and each operation — whatever its outcome —
contributes exactly one entry to the returned trace, so one failure never
prevents the remaining operations from being awaited. -/
theorem fulfill_requests_awaits_all_and_returns (async_operations : List OpOutcome) :
    ∃ logs, fulfill_requests async_operations = Except.ok logs ∧
      logs.length = async_operations.length :=
  ⟨_, rfl, List.length_map _ _⟩

theorem costCapGo_ge_one (spent mc avg cost : ℚ) (total : Nat) (h : 1 ≤ total) :
    ∀ fuel i, 1 ≤ costCapGo spent mc avg cost total i fuel := by
  intro fuel
  induction fuel with
  | zero =>
    intro i
    simpa [costCapGo] using h
  | succ n ih =>
    intro i
    rw [costCapGo]
    split
    · omega
    · exact ih (i + 1)

/-- C9: whenever the unconstrained `units_requested` is at least 1, the budget
gate never reduces it below 1; in particular, when `spent_this_hour` already
exceeds 75% of the hourly budget before any new unit is costed (and the
per-unit predicted cost is nonnegative), exactly one unit is still
requested. -/
theorem cost_gate_never_below_one (spent mc avg cost : ℚ) (total : Nat)
    (h : 1 ≤ total) :
    1 ≤ cappedUnitsRequested spent mc avg cost total ∧
      (0 ≤ avg * cost → mc * (3 / 4) < spent →
        cappedUnitsRequested spent mc avg cost total = 1) := by
  constructor
  · exact costCapGo_ge_one spent mc avg cost total h total 0
  · intro hac hspent
    obtain ⟨k, rfl⟩ : ∃ k, total = k + 1 := ⟨total - 1, by omega⟩
    rw [cappedUnitsRequested, costCapGo, if_pos]
    push_cast
    nlinarith [hac, hspent]

/-- Witness for C9: with the budget already exhausted (`spent_this_hour = 100`
against `max_cost_per_hour = 10`) and 5 units wanted, the gate still requests
exactly one unit. -/
theorem cost_gate_never_below_one_witness :
    1 ≤ cappedUnitsRequested 100 10 (1 / 4) 2 5 ∧
      cappedUnitsRequested 100 10 (1 / 4) 2 5 = 1 :=
  ⟨(cost_gate_never_below_one 100 10 (1 / 4) 2 5 (by norm_num)).1,
   (cost_gate_never_below_one 100 10 (1 / 4) 2 5 (by norm_num)).2
     (by norm_num) (by norm_num)⟩

/-- C10: for any positive growth factor, the very first `apply` call after
construction with at least one pending pod increments the trigger count from 0
to 1, because `last_num_pods` is initialised to 0 and the growth test is a
strict comparison against `trigger_growth_factor * 0`. -/
theorem growth_first_pending_increments_triggers (tgf : ℚ) (n : Nat)
    (hf : 0 < tgf) (hn : 1 ≤ n) :
    (growthUpdate tgf ⟨0, 0⟩ n).num_triggers = 1 := by
  rw [growthUpdate, if_pos]
  have : (0 : ℚ) < (n : ℚ) := by exact_mod_cast Nat.lt_of_lt_of_le Nat.zero_lt_one hn
  simpa using this

/-- Witness for C10: the first cycle seeing one pending pod with growth factor
2 already counts one trigger. -/
theorem growth_first_pending_increments_triggers_witness :
    (growthUpdate 2 ⟨0, 0⟩ 1).num_triggers = 1 :=
  growth_first_pending_increments_triggers 2 1 (by norm_num) (le_refl 1)

end Autoscaling
